import Mathlib

/-
Verification development for the detourist route-generation core.

The Lean definitions below are a shallow embedding of the Python sources:
  backend/geocoding/geocoder.py      (search-zone construction)
  backend/routing/route_builder.py   (route building)
  backend/scoring/route_scorer.py    (route scoring)
  backend/orchestrator.py            (bounded-parallel orchestrator)
  backend/orchestrator_sync.py       (sequential orchestrator)

Modelling conventions:
  * Python floats are idealised as rationals (ℚ); Python ints are ℤ or ℕ.
  * Python round() (round-half-to-even) on an exact quotient a/b is embedded
    as the integer function roundHalfEvenDiv a b.
  * External HTTP providers (Mapbox directions / optimized-trips / isochrone,
    Overpass, CLIP, Mapillary) are oracles passed in as function parameters;
    a provider call that raises is the oracle returning none.
  * The Redis cache is an oracle whose get/set operations return
    Except CacheErr _, mirroring that redis calls in the source are not
    wrapped in try/except: an error result propagates.
  * Geometric regions (shapely polygons) are modelled as Set (ℝ × ℝ); the
    buffer(0) cleanup is the identity in this idealisation.
  * Python lists are Lean lists; a stable sort with key k descending
    (sorted(key=k, reverse=True) / list.sort(key=k, reverse=True)) is the
    stable insertion sort sortByKeyDesc k.
-/

/-- Stable insertion of x into a list already sorted by key descending; an
element inserted from the left goes before later elements of equal key,
matching the stability of Python sorts. -/
def insertByDesc {α : Type} (key : α → ℚ) (x : α) : List α → List α
  | [] => [x]
  | y :: ys => if key y ≤ key x then x :: y :: ys else y :: insertByDesc key x ys

/-- Stable sort, key descending: Python sorted(xs, key=key, reverse=True). -/
def sortByKeyDesc {α : Type} (key : α → ℚ) (l : List α) : List α :=
  l.foldr (insertByDesc key) []

/-- Python round-half-to-even of the exact quotient a / b (b > 0), as used by
round() on the idealised real value. -/
def roundHalfEvenDiv (a b : ℤ) : ℤ :=
  let f := a.fdiv b
  let r := a - f * b
  if 2 * r < b then f
  else if b < 2 * r then f + 1
  else if f % 2 = 0 then f else f + 1

-- ---------------------------------------------------------------------------
-- Data model (geocoder.py, waypoint_searcher.py, route_builder.py)
-- ---------------------------------------------------------------------------

/-- geocoder.Coordinates: {latitude, longitude} in degrees. -/
structure Coordinates where
  latitude : ℚ
  longitude : ℚ
deriving DecidableEq, Repr

/-- waypoint_searcher.Waypoint. The metadata dict is modelled as an
association list; it is never consulted by the embedded code. -/
structure Waypoint where
  name : String
  coordinates : Coordinates
  category : String
  relevance_score : ℚ
  metadata : List (String × String) := []
  input_query : String := ""
deriving DecidableEq, Repr

/-- The constraints dict passed through the pipeline. The source stores it as
a Dict; only these keys are ever read by the embedded code
(route_builder._apply_constraints, _mb_profile and the orchestrators). -/
structure Constraints where
  transport_mode : Option String := none
  avoid_ferries : Bool := false
  avoid_tolls : Bool := false
deriving DecidableEq, Repr

/-- route_builder.RouteSegment. The source field named end is endPoint here
(end is a Lean keyword). Durations are ints in the source. -/
structure RouteSegment where
  start : Coordinates
  endPoint : Coordinates
  distance_meters : ℚ
  duration_seconds : ℤ
  instructions : List String
  polyline : String
deriving DecidableEq, Repr

/-- route_builder.Route. constraints_applied holds the constraints dict of
boolean flags ({k: bool(v)} in the source). -/
structure Route where
  origin : Coordinates
  destination : Coordinates
  waypoints : List Waypoint
  segments : List RouteSegment
  total_distance_meters : ℚ
  total_duration_seconds : ℤ
  constraints_applied : Constraints
  input_queries : List String
deriving DecidableEq, Repr

/-- geocoder.Isochrone. -/
structure Isochrone where
  center : Coordinates
  travel_time_minutes : ℤ
  polygon : List Coordinates
deriving DecidableEq, Repr

/-- geocoder.SearchZone. -/
structure SearchZone where
  origin_isochrone : Isochrone
  destination_isochrone : Isochrone
  intersection_polygon : List Coordinates
deriving DecidableEq, Repr

-- ---------------------------------------------------------------------------
-- Scorer (route_scorer.py)
-- ---------------------------------------------------------------------------

/-- route_scorer.ScoringWeights (defaults 0.4 / 0.3 / 0.3). -/
structure ScoringWeights where
  clip_weight : ℚ := 4/10
  duration_weight : ℚ := 3/10
  waypoint_relevance_weight : ℚ := 3/10
deriving DecidableEq, Repr

/-- route_scorer.RouteScore. -/
structure RouteScore where
  route : Route
  clip_score : ℚ
  efficiency_score : ℚ
  preference_match_score : ℚ
  overall_score : ℚ
  image_scores : List ℚ
  num_images : ℕ
deriving DecidableEq, Repr

namespace RouteScorer

/-- route_scorer.RouteScorer._calculate_efficiency_score.  Source:
if min_duration <= 0: return 100.0;
duration_ratio = (duration - min_duration) / min_duration;
efficiency_score = 100 - 10 * ((duration_ratio + 1) ** 3);
return max(0.0, min(100.0, efficiency_score)). -/
def calculateEfficiencyScore (duration minDuration : ℤ) : ℚ :=
  if minDuration ≤ 0 then 100
  else
    let durationRatio : ℚ := ((duration : ℚ) - (minDuration : ℚ)) / (minDuration : ℚ)
    max 0 (min 100 (100 - 10 * (durationRatio + 1) ^ 3))

/-- route_scorer.RouteScorer._calculate_preference_match_score.  Returns -1
when the route has no waypoints; otherwise the mean waypoint relevance with a
multi-waypoint bonus, clamped above at 100 (no lower clamp in the source). -/
def calculatePreferenceMatchScore (waypointBonusRate : ℚ) (route : Route) : ℚ :=
  if route.waypoints.isEmpty then -1
  else
    let n : ℚ := route.waypoints.length
    let avgRelevance := (route.waypoints.map (·.relevance_score)).sum / n
    let bonusMultiplier := 1 + waypointBonusRate * (n - 1)
    min 100 (avgRelevance * bonusMultiplier)

/-- route_scorer.RouteScorer._combine_scores.  When preference_score < 0
(no waypoints) its weight is redistributed between clip and duration. -/
def combineScores (weights : ScoringWeights) (clipScore efficiencyScore preferenceScore : ℚ) : ℚ :=
  if preferenceScore < 0 then
    let totalWeight := weights.clip_weight + weights.duration_weight
    if 0 < totalWeight then
      (weights.clip_weight / totalWeight) * clipScore
        + (weights.duration_weight / totalWeight) * efficiencyScore
    else (1/2) * clipScore + (1/2) * efficiencyScore
  else
    weights.clip_weight * clipScore + weights.duration_weight * efficiencyScore
      + weights.waypoint_relevance_weight * preferenceScore

/-- route_scorer.RouteScorer.score_routes.  imageScoresOf abstracts the
composite of _fetch_route_images and _compute_clip_scores for one route: the
list of per-image similarity scores the source would compute (the network,
Mapillary and CLIP calls). With max_images_per_route = 0 the source samples
zero points and fetches nothing, hence take maxImagesPerRoute. min_duration is
the batch minimum; clip scores are rescaled by the running batch maximum
(initialised at 0.0); results are stable-sorted by overall score descending. -/
def scoreRoutes (weights : ScoringWeights) (waypointBonusRate : ℚ)
    (imageScoresOf : Route → List ℚ) (maxImagesPerRoute : ℕ)
    (routes : List Route) : List RouteScore :=
  match routes with
  | [] => []
  | r0 :: rest =>
    let minDuration := rest.foldl (fun m r => min m r.total_duration_seconds)
      r0.total_duration_seconds
    let firstPass := (r0 :: rest).map (fun r =>
      let imageScores := (imageScoresOf r).take maxImagesPerRoute
      let clipScore : ℚ := if imageScores.isEmpty then 0
        else imageScores.sum / (imageScores.length : ℚ)
      (r, clipScore, imageScores))
    let maxClipScore := firstPass.foldl (fun m t => max m t.2.1) 0
    let scoredRoutes := firstPass.map (fun t =>
      let normalizedClip := if 0 < maxClipScore then t.2.1 / maxClipScore * 100 else 0
      let efficiencyScore := calculateEfficiencyScore t.1.total_duration_seconds minDuration
      let preferenceScore := calculatePreferenceMatchScore waypointBonusRate t.1
      let overallScore := combineScores weights normalizedClip efficiencyScore preferenceScore
      { route := t.1, clip_score := normalizedClip, efficiency_score := efficiencyScore,
        preference_match_score := preferenceScore, overall_score := overallScore,
        image_scores := t.2.2, num_images := t.2.2.length : RouteScore })
    sortByKeyDesc (·.overall_score) scoredRoutes

end RouteScorer

-- ---------------------------------------------------------------------------
-- Route builder (route_builder.py)
-- ---------------------------------------------------------------------------

namespace RouteBuilder

/-- route_builder.OPT_TRIPS_MAX_COORDS: cap for Mapbox Optimized Trips. -/
def OPT_TRIPS_MAX_COORDS : ℕ := 12

/-- route_builder.RouteBuilder._mb_profile: optional transport mode to Mapbox
profile, defaulting to driving both for a missing key and an unknown mode. -/
def mbProfile (transportMode : Option String) : String :=
  let raw := match transportMode with
    | none => "driving"
    | some s => if s = "" then "driving" else s
  let mode := raw.toLower.trim
  if mode = "walking" then "walking"
  else if mode = "cycling" then "cycling"
  else "driving"

/-- route_builder.RouteBuilder._apply_constraints: the exclude values sent to
Mapbox (ferry before toll, matching the source's append order). -/
def applyConstraints (c : Constraints) : List String :=
  (if c.avoid_ferries then ["ferry"] else []) ++ (if c.avoid_tolls then ["toll"] else [])

/-- One (distance_m, duration_s, instructions, polyline) tuple from
_directions_routes_mapbox. -/
structure DirectionsLeg where
  distance : ℚ
  duration : ℤ
  instructions : List String
  polyline : String
deriving DecidableEq, Repr

/-- The Mapbox Directions oracle: profile, exclude params, start, endpoint.
none models an HTTP error or the API returning no route (both raise in
_directions_segment_mapbox). The empty-polyline fallback _encode_polyline5 is
absorbed into the oracle's polyline string. -/
def DirectionsOracle := String → List String → Coordinates → Coordinates → Option DirectionsLeg

/-- route_builder.RouteBuilder._directions_segment_mapbox for one leg. -/
def directionsSegment (dir : DirectionsOracle) (profile : String) (excl : List String)
    (a b : Coordinates) : Option RouteSegment :=
  (dir profile excl a b).map (fun leg =>
    { start := a, endPoint := b, distance_meters := leg.distance,
      duration_seconds := leg.duration, instructions := leg.instructions,
      polyline := leg.polyline })

/-- route_builder.RouteBuilder._optimize_waypoint_order.  The oracle value is
the waypoints array of the Optimized Trips response (none = HTTP error).  The
source returns the input list unchanged on error, on an empty response, and -
per the comment at its final line - also when a reordering is returned: the
waypoint_index mapping is never parsed. -/
def optimizeWaypointOrder (optResp : Option (List ℕ)) (waypoints : List Waypoint) :
    List Waypoint :=
  match optResp with
  | none => waypoints
  | some wpInfo => if wpInfo.isEmpty then waypoints else waypoints

/-- The leg loop of _build_multi_route: one directions call per consecutive
pair of the chain; any failing leg fails the whole build (the source raises). -/
def buildSegments (segOf : Coordinates → Coordinates → Option RouteSegment) :
    List Coordinates → Option (List RouteSegment)
  | a :: b :: rest => do
      let s ← segOf a b
      let more ← buildSegments segOf (b :: rest)
      pure (s :: more)
  | _ => some []

/-- route_builder.RouteBuilder._build_multi_route. -/
def buildMultiRoute (dir : DirectionsOracle) (optResp : Option (List ℕ))
    (origin destination : Coordinates) (waypoints : List Waypoint)
    (constraints : Constraints) (optimizeOrder : Bool) : Option Route :=
  let profile := mbProfile constraints.transport_mode
  let excl := applyConstraints constraints
  let orderedWaypoints :=
    if optimizeOrder ∧ 2 ≤ waypoints.length
    then optimizeWaypointOrder optResp waypoints
    else waypoints
  let chain := origin :: (orderedWaypoints.map (·.coordinates) ++ [destination])
  (buildSegments (directionsSegment dir profile excl) chain).map (fun segments =>
    { origin := origin, destination := destination, waypoints := orderedWaypoints,
      segments := segments,
      total_distance_meters := (segments.map (·.distance_meters)).sum,
      total_duration_seconds := (segments.map (·.duration_seconds)).sum,
      constraints_applied := constraints,
      input_queries := orderedWaypoints.map (·.input_query) })

/-- route_builder.RouteBuilder.build_route: optimized order is requested
exactly when there are 2+ waypoints and 2 + len(waypoints) is within
OPT_TRIPS_MAX_COORDS. -/
def buildRoute (dir : DirectionsOracle) (optResp : Option (List ℕ))
    (origin destination : Coordinates) (waypoints : List Waypoint)
    (constraints : Constraints) : Option Route :=
  let totalCoords := 2 + waypoints.length
  let doOptimize := decide (2 ≤ waypoints.length) && decide (totalCoords ≤ OPT_TRIPS_MAX_COORDS)
  buildMultiRoute dir optResp origin destination waypoints constraints doOptimize

/-- route_builder.RouteBuilder.build_direct_route: a single directions call;
an exception there returns None, otherwise a zero-waypoint single-segment
Route. -/
def buildDirectRoute (dir : DirectionsOracle) (origin destination : Coordinates)
    (constraints : Constraints) : Option Route :=
  let profile := mbProfile constraints.transport_mode
  let excl := applyConstraints constraints
  (directionsSegment dir profile excl origin destination).map (fun seg =>
    { origin := origin, destination := destination, waypoints := [], segments := [seg],
      total_distance_meters := seg.distance_meters,
      total_duration_seconds := seg.duration_seconds,
      constraints_applied := constraints, input_queries := [] })

end RouteBuilder

-- ---------------------------------------------------------------------------
-- Search-zone splits (geocoder.py)
-- ---------------------------------------------------------------------------

namespace Geocoder

/-- geocoder.Geocoder._evenly_spaced_minutes: n = max(2, min(max_count, t+1))
values round(i * (t / (n-1))) for i in range(n), Python float division and
round idealised over exact rationals. -/
def evenlySpacedMinutes (maxTravelTime : ℤ) (maxCount : ℤ) : List ℤ :=
  let n : ℤ := max 2 (min maxCount (maxTravelTime + 1))
  (List.range n.toNat).map (fun (i : ℕ) => roundHalfEvenDiv ((i : ℤ) * maxTravelTime) (n - 1))

/-- The minute splits generated by geocoder.Geocoder.create_search_zone:
evenly spaced splits when base > 60, else range(0, budget+1, 5). -/
def createSearchZoneCombos (base maxAdditionalTime : ℤ) : List ℤ :=
  let maxTravelTime := base + maxAdditionalTime
  if 60 < base then evenlySpacedMinutes maxTravelTime 20
  else if maxTravelTime < 0 then []
  else (List.range (maxTravelTime.toNat / 5 + 1)).map (fun (k : ℕ) => 5 * (k : ℤ))

/-- geocoder.Geocoder._cap_minutes with the ISO_MAX_MINUTES cap (default 60). -/
def capMinutes (isoMaxMinutes m : ℤ) : ℤ :=
  if isoMaxMinutes < m then isoMaxMinutes
  else if m < 0 then 0
  else m

/-- geocoder.Geocoder._iso_geom: a tiny point buffer for minutes <= 0,
otherwise the provider isochrone polygon for the capped minutes.  provider m
is the shapely geometry create_isochrone yields for a contour of m minutes;
pointBuffer is the 1e-6 buffer around the center. -/
def isoGeom (provider : ℤ → Set (ℝ × ℝ)) (pointBuffer : Set (ℝ × ℝ)) (minutes : ℤ) :
    Set (ℝ × ℝ) :=
  if minutes ≤ 0 then pointBuffer else provider (capMinutes 60 minutes)

/-- The region whose boundary create_search_zone reports: the union over all
splits o of isochrone(origin, o) ∩ isochrone(destination, budget - o).  The
source collects only non-empty intersections, which does not change the
union, and buffer(0) is the identity in this idealisation. -/
def searchZoneUnionRegion (oProvider dProvider : ℤ → Set (ℝ × ℝ))
    (oBuffer dBuffer : Set (ℝ × ℝ)) (base maxAdditionalTime : ℤ) : Set (ℝ × ℝ) :=
  ⋃ o ∈ createSearchZoneCombos base maxAdditionalTime,
    isoGeom oProvider oBuffer o ∩
      isoGeom dProvider dBuffer (base + maxAdditionalTime - o)

end Geocoder

-- ---------------------------------------------------------------------------
-- Candidate generation (orchestrator.py / orchestrator_sync.py)
-- ---------------------------------------------------------------------------

/-- The sizing knobs both orchestrators read from the environment (WP_TOP_K,
ROUTE_MAX_SINGLE, ROUTE_MAX_PAIRS, ROUTE_MAX_TRIPLES, MAX_WP_PER_ROUTE,
RB_MAX_CANDIDATES), with the source's defaults.  The source reads them as
Python ints; the embedding covers the non-negative configurations, on which
the max(0, _) guards in orchestrator.py are the identity. -/
structure OrchKnobs where
  wp_top_k : ℕ := 12
  route_max_single : ℕ := 6
  route_max_pairs : ℕ := 6
  route_max_triples : ℕ := 0
  max_wp_per_route : ℕ := 3
  rb_max_candidates : ℕ := 12
deriving DecidableEq, Repr

/-- Waypoints sorted by relevance_score descending (stable), as by
sorted(waypoints, key=lambda w: w.relevance_score, reverse=True). -/
def sortWaypointsByRelevanceDesc (ws : List Waypoint) : List Waypoint :=
  sortByKeyDesc (·.relevance_score) ws

/-- The pair loop shared by both _make_candidates implementations: first
index i below the window bound, second index j anywhere later in the list,
pairs emitted in loop order. -/
def pairsWindowed : List Waypoint → ℕ → List (List Waypoint)
  | _, 0 => []
  | [], _ + 1 => []
  | w :: rest, windowBound + 1 =>
      rest.map (fun v => [w, v]) ++ pairsWindowed rest windowBound

/-- All index-ordered pairs of a list, in loop order. -/
def pairsOf : List Waypoint → List (List Waypoint)
  | [] => []
  | w :: rest => rest.map (fun v => [w, v]) ++ pairsOf rest

/-- All index-ordered triples of a list, in the order of the nested
i < j < k loops of both _make_candidates implementations. -/
def triplesOf : List Waypoint → List (List Waypoint)
  | [] => []
  | w :: rest => (pairsOf rest).map (fun p => w :: p) ++ triplesOf rest

/-- itertools.combinations(ordered, k): index-ordered k-subsets in
lexicographic order. -/
def combinationsLen : ℕ → List Waypoint → List (List Waypoint)
  | 0, _ => [[]]
  | _ + 1, [] => []
  | k + 1, w :: rest =>
      (combinationsLen k rest).map (fun c => w :: c) ++ combinationsLen (k + 1) rest

namespace RouteOrchestrator

/-- orchestrator.RouteOrchestrator._make_candidates: sort by relevance
descending, trim to top-K (when positive), always start with the empty
(direct) candidate; legacy mode (any of singles/pairs/triples positive)
emits capped singles, windowed pairs and windowed triples; otherwise generic
mode emits all combinations of sizes 1..MAX_WP_PER_ROUTE; finally truncate
to RB_MAX_CANDIDATES when that is positive. -/
def makeCandidates (knobs : OrchKnobs) (waypoints : List Waypoint) :
    List (List Waypoint) :=
  let ordered0 := sortWaypointsByRelevanceDesc waypoints
  let ordered := if 0 < knobs.wp_top_k then ordered0.take knobs.wp_top_k else ordered0
  let out :=
    if 0 < knobs.route_max_single ∨ 0 < knobs.route_max_pairs ∨ 0 < knobs.route_max_triples
    then
      [[]] ++ (ordered.take knobs.route_max_single).map (fun w => [w])
        ++ (pairsWindowed ordered (min ordered.length knobs.route_max_single)).take
            knobs.route_max_pairs
        ++ (triplesOf (ordered.take (min ordered.length knobs.route_max_single))).take
            knobs.route_max_triples
    else
      let K := min knobs.max_wp_per_route ordered.length
      [[]] ++ (List.range K).flatMap (fun k => combinationsLen (k + 1) ordered)
  if 0 < knobs.rb_max_candidates then out.take knobs.rb_max_candidates else out

end RouteOrchestrator

namespace RouteOrchestratorSync

/-- orchestrator_sync.RouteOrchestratorSync._make_candidates: always legacy
shaped (singles, then windowed pairs, then windowed triples only when the
triple knob is positive) and - unlike the parallel version - with no
RB_MAX_CANDIDATES truncation and no generic combinations mode. -/
def makeCandidates (knobs : OrchKnobs) (waypoints : List Waypoint) :
    List (List Waypoint) :=
  let ordered := (sortWaypointsByRelevanceDesc waypoints).take knobs.wp_top_k
  let windowBound := min ordered.length knobs.route_max_single
  [[]] ++ (ordered.take knobs.route_max_single).map (fun w => [w])
    ++ (pairsWindowed ordered windowBound).take knobs.route_max_pairs
    ++ (if 0 < knobs.route_max_triples
        then (triplesOf (ordered.take windowBound)).take knobs.route_max_triples
        else [])

end RouteOrchestratorSync

-- ---------------------------------------------------------------------------
-- Orchestrator pipeline (orchestrator.py)
-- ---------------------------------------------------------------------------

/-- extraction.llm_extractor.ExtractedParameters as consumed by the
orchestrators. -/
structure ExtractedParameters where
  origin : String
  destination : String
  time_flexibility_minutes : Option ℤ := none
  waypoint_queries : List String := []
  constraints : Constraints := {}
  preferences : String := ""
deriving DecidableEq, Repr

/-- One of the optional request.origin / request.destination dicts
({text | lat+lon}). -/
structure EndpointSpec where
  text : Option String := none
  lat : Option ℚ := none
  lon : Option ℚ := none
deriving DecidableEq, Repr

/-- orchestrator.RouteRequest.  time_max_duration_min is
request.time["max_duration_min"] when present as an int. -/
structure RouteRequest where
  user_prompt : String
  max_results : ℤ := 5
  origin : Option EndpointSpec := none
  destination : Option EndpointSpec := none
  time_max_duration_min : Option ℤ := none
deriving DecidableEq, Repr

/-- orchestrator.RouteResponse.  The source maps each kept RouteScore through
a per-element API-shaping projection and attaches wall-clock timings; the
embedding keeps the scores themselves and the dataflow counts. -/
structure RouteResponse where
  routes : List RouteScore
  total_routes_generated : ℕ
  waypoints_found : ℕ
deriving DecidableEq, Repr

/-- Errors that escape generate_routes: its outer try/except logs and
re-raises, so redis failures and fatal stage failures surface to the caller. -/
inductive OrchError where
  | cacheFailure (message : String)
  | extractionFailed
  | geocodeFailed (text : String)
  | zoneFailed
deriving DecidableEq, Repr

/-- The (name, lat rounded to 6 decimals, lon rounded to 6 decimals)
de-duplication key of orchestrator._wp_key; the source renders it as an
f-string, idealised as the tuple itself. -/
def roundHalfEvenRat (q : ℚ) : ℤ :=
  roundHalfEvenDiv q.num (q.den : ℤ)

/-- Python round(x, 6) idealised over ℚ. -/
def round6 (q : ℚ) : ℚ :=
  (roundHalfEvenRat (q * 1000000) : ℚ) / 1000000

abbrev WpDedupKey := String × ℚ × ℚ

/-- orchestrator._wp_key. -/
def wpDedupKey (w : Waypoint) : WpDedupKey :=
  (w.name, round6 w.coordinates.latitude, round6 w.coordinates.longitude)

/-- search_zone_v1 cache key payload: origin, destination, max_additional,
mode (the sha256 over the canonical JSON is injective on payloads,
idealised as the payload itself). -/
abbrev ZoneKey := Coordinates × Coordinates × ℤ × String

/-- waypoints_v2 cache key payload: zone key and queries. -/
abbrev WaypointsKey := ZoneKey × List String

/-- routes_v3 cache key payload: origin, destination, the top-K waypoint
keys, the candidate list rendered through _wp_key (the source hashes this
rendering), and the constraints. -/
abbrev RoutesKey :=
  Coordinates × Coordinates × List WpDedupKey × List (List WpDedupKey) × Constraints

/-- The redis-backed JSON cache of orchestrator.Cache, one get/set pair per
namespace, typed per stage (the to_dict/from_dict serialisation round-trips).
A redis error is an Except.error; the source never wraps these calls in
try/except. -/
structure CacheOracle where
  getLLM : String → Except String (Option ExtractedParameters)
  setLLM : String → ExtractedParameters → Except String Unit
  getGeocode : String → Except String (Option Coordinates)
  setGeocode : String → Coordinates → Except String Unit
  getZone : ZoneKey → Except String (Option SearchZone)
  setZone : ZoneKey → SearchZone → Except String Unit
  getWaypoints : WaypointsKey → Except String (Option (List Waypoint))
  setWaypoints : WaypointsKey → List Waypoint → Except String Unit
  getRoutes : RoutesKey → Except String (Option (List Route))
  setRoutes : RoutesKey → List Route → Except String Unit

/-- The deterministic external collaborators of one request.  none models a
raised provider exception.  distanceMeters abstracts orchestrator._dist_m
(equirectangular approximation; its transcendental cosine is not expressible
as an executable rational function).  imageScoresOf abstracts image fetching
plus CLIP similarity for the fixed user prompt of the request.
optimizedTrips is the Optimized Trips response; the source discards its
ordering, so no dependency on the call arguments is observable. -/
structure Providers where
  extract : String → Option ExtractedParameters
  geocode : String → Option Coordinates
  createSearchZone : Coordinates → Coordinates → ℤ → String → Option SearchZone
  searchWaypoints : SearchZone → List String → Option (List Waypoint)
  directions : RouteBuilder.DirectionsOracle
  optimizedTrips : Option (List ℕ) := none
  distanceMeters : Coordinates → Coordinates → ℚ := fun _ _ => 0
  imageScoresOf : Route → List ℚ := fun _ => []

/-- Environment-derived configuration of the parallel orchestrator.
force_transport_mode is FORCE_TRANSPORT_MODE or DEFAULT_TRANSPORT_MODE from
the environment (none when both are unset); scoring image counts default to
0 because ENABLE_SCORING defaults to false. -/
structure OrchConfig where
  knobs : OrchKnobs := {}
  rb_max_workers : ℕ := 3
  scorer_max_workers : ℕ := 2
  default_transport_mode : String := "driving"
  force_transport_mode : Option String := none
  waypoint_near_threshold_m : ℚ := 100
  scoring_min_images : ℕ := 0
  scoring_max_images : ℕ := 0
  weights : ScoringWeights := {}
  waypoint_bonus_rate : ℚ := 1/10

namespace RouteOrchestrator

/-- A redis error propagates out of generate_routes unwrapped. -/
def liftCache {α : Type} (r : Except String α) : Except OrchError α :=
  r.mapError OrchError.cacheFailure

/-- The de-duplication loop of generate_routes stage 4: iterate the
relevance-sorted waypoints, keep first occurrence of each _wp_key, stop once
top-K entries are kept (when the knob is positive). -/
def dedupLoop (topK : ℕ) : List Waypoint → List WpDedupKey → List Waypoint → List Waypoint
  | [], _, acc => acc.reverse
  | w :: rest, seen, acc =>
    let k := wpDedupKey w
    let seen2 := if k ∈ seen then seen else k :: seen
    let acc2 := if k ∈ seen then acc else w :: acc
    if 0 < topK ∧ topK ≤ acc2.length then acc2.reverse
    else dedupLoop topK rest seen2 acc2

/-- Sort by relevance descending, de-duplicate by _wp_key keeping the higher
relevance, trim to top-K. -/
def dedupeTopK (topK : ℕ) (ws : List Waypoint) : List Waypoint :=
  dedupLoop topK (sortWaypointsByRelevanceDesc ws) [] []

/-- generate_routes stage 1/2 geocode helper _cached_geocode: get from the
geocode_v1 namespace by normalised text, else geocode and store. -/
def cachedGeocode (P : Providers) (C : CacheOracle) (text : String) :
    Except OrchError Coordinates := do
  let gkey := text.trim.toLower
  match ← liftCache (C.getGeocode gkey) with
  | some c => pure c
  | none =>
    match P.geocode text with
    | none => throw (OrchError.geocodeFailed text)
    | some c => do
        liftCache (C.setGeocode gkey c)
        pure c

/-- Python x or fallback on the optional text hint (empty string is falsy). -/
def textOrFallback (t : Option String) (fallback : String) : String :=
  match t with
  | some s => if s = "" then fallback else s
  | none => fallback

/-- Endpoint resolution of generate_routes: explicit lat/lon wins, otherwise
geocode the text hint or the extracted name. -/
def resolveEndpoint (P : Providers) (C : CacheOracle) (endpointSpec : Option EndpointSpec)
    (fallbackText : String) : Except OrchError Coordinates :=
  match endpointSpec with
  | some e =>
    match e.lat, e.lon with
    | some la, some lo => pure { latitude := la, longitude := lo }
    | _, _ => cachedGeocode P C (textOrFallback e.text fallbackText)
  | none => cachedGeocode P C fallbackText

/-- ep.constraints.get("transport_mode", default mode). -/
def transportModeOf (cfg : OrchConfig) (ep : ExtractedParameters) : String :=
  match ep.constraints.transport_mode with
  | some m => m
  | none => cfg.default_transport_mode

/-- max_additional_minutes: ep.time_flexibility_minutes or 30 (Python or:
0 and None both give 30), overridden by request.time["max_duration_min"]
when that is an int. -/
def effectiveMaxAdditionalMinutes (ep : ExtractedParameters) (req : RouteRequest) : ℤ :=
  let fromExtraction := match ep.time_flexibility_minutes with
    | none => 30
    | some t => if t = 0 then 30 else t
  match req.time_max_duration_min with
  | some v => v
  | none => fromExtraction

/-- constraints.setdefault("transport_mode", mode) then the forced override
(stripped and lowercased) when FORCE_TRANSPORT_MODE / DEFAULT_TRANSPORT_MODE
is set in the environment. -/
def finalConstraints (cfg : OrchConfig) (ep : ExtractedParameters) (mode : String) :
    Constraints :=
  let c0 := ep.constraints
  let c1 : Constraints :=
    { c0 with transport_mode := some (c0.transport_mode.getD mode) }
  match cfg.force_transport_mode with
  | some f => { c1 with transport_mode := some f.trim.toLower }
  | none => c1

/-- generate_routes stage 3: search_zone_v1 cache, else create_search_zone
(whose exceptions are not caught and hence fatal), then store. -/
def zoneStage (P : Providers) (C : CacheOracle) (o d : Coordinates) (maxAdd : ℤ)
    (mode : String) : Except OrchError (ZoneKey × SearchZone) := do
  let zkey : ZoneKey := (o, d, maxAdd, mode)
  match ← liftCache (C.getZone zkey) with
  | some z => pure (zkey, z)
  | none =>
    match P.createSearchZone o d maxAdd mode with
    | none => throw OrchError.zoneFailed
    | some z => do
        liftCache (C.setZone zkey z)
        pure (zkey, z)

/-- generate_routes stage 4: waypoints_v2 cache, else the Overpass search
(whose failure is caught and degrades to an empty list), de-duplicated and
trimmed, then stored. -/
def waypointsStage (cfg : OrchConfig) (P : Providers) (C : CacheOracle) (zkey : ZoneKey)
    (zone : SearchZone) (queries : List String) : Except OrchError (List Waypoint) := do
  let wkey : WaypointsKey := (zkey, queries)
  match ← liftCache (C.getWaypoints wkey) with
  | some ws => pure ws
  | none => do
    let raw := (P.searchWaypoints zone queries).getD []
    let deduped := dedupeTopK cfg.knobs.wp_top_k raw
    liftCache (C.setWaypoints wkey deduped)
    pure deduped

/-- The near-endpoint filter applied after stage 4 (on the cached branch
too): drop waypoints within the threshold of origin or destination. -/
def dropNearEndpoints (cfg : OrchConfig) (P : Providers) (o d : Coordinates)
    (ws : List Waypoint) : List Waypoint :=
  ws.filter (fun w =>
    cfg.waypoint_near_threshold_m < P.distanceMeters w.coordinates o
      ∧ cfg.waypoint_near_threshold_m < P.distanceMeters w.coordinates d)

/-- generate_routes stage 5 build loop: build every candidate, dropping each
failure; when nothing builds, fall back to one direct route; when that fails
too, the route list is simply empty.  This is the value semantics of both
the sequential branch (rb_max_workers <= 1 or a single candidate) and the
worker-pool branch, which collects the same successful builds (as_completed
may permute the collection order; the sequential order is embedded). -/
def buildStage (P : Providers) (o d : Coordinates) (candidates : List (List Waypoint))
    (constraints : Constraints) : List Route :=
  let candidates := if candidates.isEmpty then [[]] else candidates
  let built := candidates.filterMap (fun c =>
    RouteBuilder.buildRoute P.directions P.optimizedTrips o d c constraints)
  if built.isEmpty then
    (RouteBuilder.buildDirectRoute P.directions o d constraints).toList
  else built

/-- generate_routes stage 5 with the routes_v3 cache around the build loop. -/
def routesStage (cfg : OrchConfig) (P : Providers) (C : CacheOracle) (o d : Coordinates)
    (waypoints : List Waypoint) (constraints : Constraints) :
    Except OrchError (List Route) := do
  let candidates := makeCandidates cfg.knobs waypoints
  let rkey : RoutesKey :=
    (o, d, waypoints.map wpDedupKey, candidates.map (fun c => c.map wpDedupKey), constraints)
  match ← liftCache (C.getRoutes rkey) with
  | some cached => pure cached
  | none => do
    let routes := buildStage P o d candidates constraints
    liftCache (C.setRoutes rkey routes)
    pure routes

/-- generate_routes stage 6: each route is scored through
score_routes([r], ...)[0], i.e. in a singleton batch, sequentially when
scorer_max_workers <= 1 or there is one route, otherwise through the scoring
pool collecting the same per-route results. -/
def scoreStage (cfg : OrchConfig) (P : Providers) (routes : List Route) :
    List RouteScore :=
  routes.filterMap (fun r =>
    (RouteScorer.scoreRoutes cfg.weights cfg.waypoint_bonus_rate P.imageScoresOf
      cfg.scoring_max_images [r]).head?)

/-- orchestrator.RouteOrchestrator.generate_routes under deterministic
providers: the sequential rendering of the pipeline (the stage-1/2 futures
only change scheduling, not values). -/
def generateRoutes (cfg : OrchConfig) (P : Providers) (C : CacheOracle)
    (req : RouteRequest) : Except OrchError RouteResponse := do
  let cachedExtraction ← liftCache (C.getLLM req.user_prompt)
  let ep ← match cachedExtraction with
    | some v => pure v
    | none =>
      match P.extract req.user_prompt with
      | none => throw OrchError.extractionFailed
      | some extracted => do
          liftCache (C.setLLM req.user_prompt extracted)
          pure extracted
  let transportMode := transportModeOf cfg ep
  let originCoords ← resolveEndpoint P C req.origin ep.origin
  let destCoords ← resolveEndpoint P C req.destination ep.destination
  let maxAdditionalMinutes := effectiveMaxAdditionalMinutes ep req
  let (zkey, zone) ← zoneStage P C originCoords destCoords maxAdditionalMinutes transportMode
  let fetched ← waypointsStage cfg P C zkey zone ep.waypoint_queries
  let waypoints := dropNearEndpoints cfg P originCoords destCoords fetched
  let constraints := finalConstraints cfg ep transportMode
  let routes ← routesStage cfg P C originCoords destCoords waypoints constraints
  let scored := scoreStage cfg P routes
  let ranked := sortByKeyDesc (fun s => s.overall_score) scored
  let maxResults := (max 1 (if req.max_results = 0 then 3 else req.max_results)).toNat
  pure { routes := ranked.take maxResults,
         total_routes_generated := routes.length,
         waypoints_found := waypoints.length }

end RouteOrchestrator

-- ---------------------------------------------------------------------------
-- Concrete fixtures for counterexamples and witnesses
-- ---------------------------------------------------------------------------

/-- Sample origin. -/
def cA : Coordinates := { latitude := 37, longitude := -122 }

/-- Sample destination. -/
def cB : Coordinates := { latitude := 38, longitude := -121 }

/-- Sample waypoint 1. -/
def wp1 : Waypoint :=
  { name := "cafe one", coordinates := { latitude := 40, longitude := -120 },
    category := "cafe", relevance_score := 9 }

/-- Sample waypoint 2. -/
def wp2 : Waypoint :=
  { name := "park two", coordinates := { latitude := 41, longitude := -119 },
    category := "park", relevance_score := 8 }

/-- A directions oracle that always answers with a zero-cost leg. -/
def dirAlways : RouteBuilder.DirectionsOracle :=
  fun _ _ _ _ => some { distance := 0, duration := 0, instructions := [], polyline := "" }

/-- A directions oracle on which every call fails. -/
def dirNever : RouteBuilder.DirectionsOracle := fun _ _ _ _ => none

/-- The route buildRoute dirAlways builds through [wp1, wp2]. -/
def zeroSeg (a b : Coordinates) : RouteSegment :=
  { start := a, endPoint := b, distance_meters := 0, duration_seconds := 0,
    instructions := [], polyline := "" }

/-- The concrete two-waypoint route built by dirAlways. -/
def builtC5 : Route :=
  { origin := cA, destination := cB, waypoints := [wp1, wp2],
    segments := [zeroSeg cA wp1.coordinates, zeroSeg wp1.coordinates wp2.coordinates,
                 zeroSeg wp2.coordinates cB],
    total_distance_meters := 0, total_duration_seconds := 0,
    constraints_applied := {}, input_queries := ["", ""] }

/-- The concrete direct route built by dirAlways. -/
def builtDirect : Route :=
  { origin := cA, destination := cB, waypoints := [], segments := [zeroSeg cA cB],
    total_distance_meters := 0, total_duration_seconds := 0,
    constraints_applied := {}, input_queries := [] }

/-- A zero-waypoint route of duration 600 s. -/
def r600 : Route :=
  { origin := cA, destination := cB, waypoints := [],
    segments := [{ start := cA, endPoint := cB, distance_meters := 5000,
                   duration_seconds := 600, instructions := [], polyline := "" }],
    total_distance_meters := 5000, total_duration_seconds := 600,
    constraints_applied := {}, input_queries := [] }

/-- A zero-waypoint route of duration 1200 s (twice r600). -/
def r1200 : Route :=
  { origin := cA, destination := cB, waypoints := [],
    segments := [{ start := cA, endPoint := cB, distance_meters := 9000,
                   duration_seconds := 1200, instructions := [], polyline := "" }],
    total_distance_meters := 9000, total_duration_seconds := 1200,
    constraints_applied := {}, input_queries := [] }

/-- Seven distinct waypoints of descending relevance, enough to overflow the
default candidate cap in legacy mode (1 + 6 singles + 6 pairs = 13 > 12). -/
def ws7 : List Waypoint :=
  [{ name := "w1", coordinates := { latitude := 1, longitude := 1 }, category := "t",
     relevance_score := 9 },
   { name := "w2", coordinates := { latitude := 2, longitude := 2 }, category := "t",
     relevance_score := 8 },
   { name := "w3", coordinates := { latitude := 3, longitude := 3 }, category := "t",
     relevance_score := 7 },
   { name := "w4", coordinates := { latitude := 4, longitude := 4 }, category := "t",
     relevance_score := 6 },
   { name := "w5", coordinates := { latitude := 5, longitude := 5 }, category := "t",
     relevance_score := 5 },
   { name := "w6", coordinates := { latitude := 6, longitude := 6 }, category := "t",
     relevance_score := 4 },
   { name := "w7", coordinates := { latitude := 7, longitude := 7 }, category := "t",
     relevance_score := 3 }]

/-- A cache on which every get is a miss and every set succeeds. -/
def missCache : CacheOracle :=
  { getLLM := fun _ => .ok none, setLLM := fun _ _ => .ok (),
    getGeocode := fun _ => .ok none, setGeocode := fun _ _ => .ok (),
    getZone := fun _ => .ok none, setZone := fun _ _ => .ok (),
    getWaypoints := fun _ => .ok none, setWaypoints := fun _ _ => .ok (),
    getRoutes := fun _ => .ok none, setRoutes := fun _ _ => .ok (),
    }

/-- A cache whose first get (the llm_extract_v1 namespace) raises. -/
def errCacheRedisDown : CacheOracle :=
  { missCache with getLLM := fun _ => .error "redis down" }

/-- A second failing cache, raising a different redis error. -/
def errCacheBoom : CacheOracle :=
  { missCache with getLLM := fun _ => .error "connection refused" }

/-- A trivial isochrone fixture. -/
def isoFix : Isochrone := { center := cA, travel_time_minutes := 0, polygon := [] }

/-- A trivial search-zone fixture. -/
def zoneFix : SearchZone :=
  { origin_isochrone := isoFix, destination_isochrone := isoFix, intersection_polygon := [] }

/-- Extraction result fixture with no waypoint queries. -/
def epFix : ExtractedParameters := { origin := "a", destination := "b" }

/-- Providers on which extraction and the search zone succeed, the waypoint
search raises, and every directions call fails. -/
def provAllBuildsFail : Providers :=
  { extract := fun _ => some epFix,
    geocode := fun _ => none,
    createSearchZone := fun _ _ _ _ => some zoneFix,
    searchWaypoints := fun _ _ => none,
    directions := dirNever }

/-- Providers whose directions calls always succeed with a zero-cost leg. -/
def provZeroLegs : Providers :=
  { extract := fun _ => some epFix,
    geocode := fun _ => none,
    createSearchZone := fun _ _ _ _ => some zoneFix,
    searchWaypoints := fun _ _ => none,
    directions := dirAlways }

/-- A request with explicit origin/destination coordinates (no geocoding). -/
def reqFix : RouteRequest :=
  { user_prompt := "scenic drive",
    origin := some { lat := some 37, lon := some (-122) },
    destination := some { lat := some 38, lon := some (-121) } }

-- ---------------------------------------------------------------------------
-- Theorems
-- ---------------------------------------------------------------------------

/-- C1 counterexample: the efficiency formula implemented in
_calculate_efficiency_score gives a route whose duration equals the batch
minimum (or baseline) the score 90, not the score 100 asserted by the claim:
at d = m = 600, score = 100 - 10 * (0 + 1)^3 = 90. -/
theorem C1_counterexample :
    RouteScorer.calculateEfficiencyScore 600 600 = 90 ∧ (90 : ℚ) ≠ 100 := by
  constructor
  · norm_num [RouteScorer.calculateEfficiencyScore]
  · norm_num

/-- C1 amended: for every positive batch minimum (or baseline) m and duration
d, the efficiency score equals 100 - 10*((d - m)/max(1, m) + 1)^3 clamped to
[0, 100]; in particular a route with d = m scores exactly 90 (not 100), and a
route with d = 2m scores exactly 20.  (For m <= 0 the source returns 100
directly, skipping the formula.) -/
theorem C1_amended (d m : ℤ) (h : 1 ≤ m) :
    RouteScorer.calculateEfficiencyScore d m
      = max 0 (min 100 (100 - 10 * (((d : ℚ) - (m : ℚ)) / max 1 (m : ℚ) + 1) ^ 3))
    ∧ RouteScorer.calculateEfficiencyScore m m = 90
    ∧ RouteScorer.calculateEfficiencyScore (2 * m) m = 20 := by
  have hm0 : ¬ (m ≤ 0) := by omega
  have hmQ : (1 : ℚ) ≤ (m : ℚ) := by exact_mod_cast h
  have hmax : max 1 (m : ℚ) = (m : ℚ) := max_eq_right hmQ
  have hne : (m : ℚ) ≠ 0 := by
    have hpos : (0 : ℚ) < (m : ℚ) := lt_of_lt_of_le one_pos hmQ
    exact ne_of_gt hpos
  refine ⟨?_, ?_, ?_⟩
  · simp [RouteScorer.calculateEfficiencyScore, hm0, hmax]
  · simp only [RouteScorer.calculateEfficiencyScore, if_neg hm0]
    rw [sub_self, zero_div]
    norm_num
  · simp only [RouteScorer.calculateEfficiencyScore, if_neg hm0]
    have : ((2 * m : ℤ) : ℚ) - (m : ℚ) = (m : ℚ) := by push_cast; ring
    rw [this, div_self hne]
    norm_num

/-- C1 witness: the amended statement at d = 1200, m = 600. -/
theorem C1_witness :
    (1 : ℤ) ≤ 600 ∧
    (RouteScorer.calculateEfficiencyScore 1200 600
        = max 0 (min 100
            (100 - 10 * ((((1200 : ℤ) : ℚ) - ((600 : ℤ) : ℚ)) / max 1 ((600 : ℤ) : ℚ) + 1) ^ 3))
      ∧ RouteScorer.calculateEfficiencyScore 600 600 = 90
      ∧ RouteScorer.calculateEfficiencyScore (2 * 600) 600 = 20) :=
  ⟨by decide, C1_amended 1200 600 (by decide)⟩

/-- Dividing out an exact multiple leaves no remainder to round. -/
theorem roundHalfEvenDiv_mul_cancel (t : ℤ) : roundHalfEvenDiv (19 * t) 19 = t := by
  have hf : (19 * t).fdiv 19 = t := Int.mul_fdiv_cancel_left t (by norm_num)
  have hr : 19 * t - t * 19 = 0 := by ring
  simp only [roundHalfEvenDiv, hf, hr]
  norm_num

/-- The evenly spaced branch of the split generator, explicitly: for
base > 60 the budget is at least 61, so n = max(2, min(20, budget+1)) = 20. -/
theorem createSearchZoneCombos_gt60 (base extra : ℤ) (hb : 60 < base) (he : 0 ≤ extra) :
    Geocoder.createSearchZoneCombos base extra
      = (List.range 20).map
          (fun (i : ℕ) => roundHalfEvenDiv ((i : ℤ) * (base + extra)) 19) := by
  unfold Geocoder.createSearchZoneCombos Geocoder.evenlySpacedMinutes
  rw [if_pos hb]
  have h1 : max 2 (min 20 (base + extra + 1)) = 20 := by omega
  rw [h1]
  have h2 : ((20 : ℤ)).toNat = 20 := rfl
  have h3 : (20 : ℤ) - 1 = 19 := by norm_num
  simp only [h2, h3]

/-- C6: the split generation of create_search_zone.  When base > 60 the
splits are the 20 evenly spaced integers round(i * budget / 19), so at most
20 values, the first 0 and the last the full budget; at base = 70,
extraMinutes = 0 that is exactly min(20, 71) = 20 splits from 0 to 70.  When
base <= 60 the splits are every 5 minutes over [0, budget]; at base = 40,
extraMinutes = 0 exactly [0, 5, ..., 40] (9 values). -/
theorem C6_search_zone_splits :
    (∀ base extra : ℤ, 60 < base → 0 ≤ extra →
      (Geocoder.createSearchZoneCombos base extra).length ≤ 20
      ∧ (Geocoder.createSearchZoneCombos base extra).head? = some 0
      ∧ (Geocoder.createSearchZoneCombos base extra).getLast? = some (base + extra))
    ∧ (∀ base extra : ℤ, base ≤ 60 → 0 ≤ base → 0 ≤ extra →
      (Geocoder.createSearchZoneCombos base extra).head? = some 0
      ∧ ∀ x ∈ Geocoder.createSearchZoneCombos base extra,
          0 ≤ x ∧ x ≤ base + extra ∧ (5 : ℤ) ∣ x)
    ∧ (Geocoder.createSearchZoneCombos 70 0).length = min 20 71
    ∧ (Geocoder.createSearchZoneCombos 70 0).head? = some 0
    ∧ (Geocoder.createSearchZoneCombos 70 0).getLast? = some 70
    ∧ Geocoder.createSearchZoneCombos 40 0 = [0, 5, 10, 15, 20, 25, 30, 35, 40] := by
  refine ⟨?_, ?_, by decide, by decide, by decide, by decide⟩
  · intro base extra hb he
    rw [createSearchZoneCombos_gt60 base extra hb he]
    have hrange : List.range 20 =
        [0, 1, 2, 3, 4, 5, 6, 7, 8, 9, 10, 11, 12, 13, 14, 15, 16, 17, 18, 19] := rfl
    rw [hrange]
    refine ⟨by simp, ?_, ?_⟩
    · simp only [List.map_cons, List.head?_cons, Option.some.injEq]
      norm_num [roundHalfEvenDiv]
    · simp only [List.map_cons, List.map_nil, List.getLast?_cons_cons,
        List.getLast?_singleton, Option.some.injEq]
      have hc : (((19 : ℕ) : ℤ)) * (base + extra) = 19 * (base + extra) := by norm_num
      rw [hc, roundHalfEvenDiv_mul_cancel]
  · intro base extra hb hb0 he
    have ht : ¬ (60 < base) := by omega
    have ht2 : ¬ (base + extra < 0) := by omega
    unfold Geocoder.createSearchZoneCombos
    rw [if_neg ht, if_neg ht2]
    constructor
    · rw [List.range_succ_eq_map]
      simp
    · intro x hx
      rw [List.mem_map] at hx
      obtain ⟨k, hk, rfl⟩ := hx
      rw [List.mem_range] at hk
      refine ⟨by positivity, by omega, ⟨(k : ℤ), rfl⟩⟩

/-- C6 witness: the general base > 60 statement applied at base = 70,
extraMinutes = 0. -/
theorem C6_witness :
    (60 : ℤ) < 70 ∧ (0 : ℤ) ≤ 0 ∧
    ((Geocoder.createSearchZoneCombos 70 0).length ≤ 20
      ∧ (Geocoder.createSearchZoneCombos 70 0).head? = some 0
      ∧ (Geocoder.createSearchZoneCombos 70 0).getLast? = some (70 + 0)) :=
  ⟨by decide, by decide, C6_search_zone_splits.1 70 0 (by decide) (by decide)⟩

/-- The source never applies the returned optimized-trips ordering. -/
theorem optimizeWaypointOrder_eq (optResp : Option (List ℕ)) (ws : List Waypoint) :
    RouteBuilder.optimizeWaypointOrder optResp ws = ws := by
  cases optResp with
  | none => rfl
  | some wpInfo => simp [RouteBuilder.optimizeWaypointOrder]

/-- One segment is built per consecutive pair of the chain. -/
theorem buildSegments_length (segOf : Coordinates → Coordinates → Option RouteSegment) :
    ∀ (a : Coordinates) (rest : List Coordinates) (segs : List RouteSegment),
      RouteBuilder.buildSegments segOf (a :: rest) = some segs → segs.length = rest.length := by
  intro a rest
  induction rest generalizing a with
  | nil =>
    intro segs h
    simp only [RouteBuilder.buildSegments] at h
    cases h
    rfl
  | cons b rest2 ih =>
    intro segs h
    simp only [RouteBuilder.buildSegments, Option.bind_eq_bind, Option.bind_eq_some,
      Option.pure_def, Option.some.injEq] at h
    obtain ⟨s, hs, more, hmore, rfl⟩ := h
    simp [ih b more hmore]

/-- C8: every Route the builder produces (multi-waypoint or direct)
satisfies len(segments) = len(waypoints) + 1 and has totals equal to the
sums of its segments' distances and durations. -/
theorem C8_route_invariants :
    (∀ (dir : RouteBuilder.DirectionsOracle) (optResp : Option (List ℕ))
        (o d : Coordinates) (ws : List Waypoint) (cs : Constraints) (flag : Bool) (r : Route),
        RouteBuilder.buildMultiRoute dir optResp o d ws cs flag = some r →
        r.segments.length = r.waypoints.length + 1
        ∧ r.total_distance_meters = (r.segments.map (fun s => s.distance_meters)).sum
        ∧ r.total_duration_seconds = (r.segments.map (fun s => s.duration_seconds)).sum)
    ∧ (∀ (dir : RouteBuilder.DirectionsOracle) (o d : Coordinates) (cs : Constraints) (r : Route),
        RouteBuilder.buildDirectRoute dir o d cs = some r →
        r.segments.length = r.waypoints.length + 1
        ∧ r.total_distance_meters = (r.segments.map (fun s => s.distance_meters)).sum
        ∧ r.total_duration_seconds = (r.segments.map (fun s => s.duration_seconds)).sum) := by
  constructor
  · intro dir optResp o d ws cs flag r h
    simp only [RouteBuilder.buildMultiRoute, Option.map_eq_some'] at h
    obtain ⟨segs, hsegs, rfl⟩ := h
    have hlen := buildSegments_length _ _ _ _ hsegs
    refine ⟨?_, by simp, by simp⟩
    simp only [hlen, List.length_append, List.length_map, List.length_cons, List.length_nil]
  · intro dir o d cs r h
    simp only [RouteBuilder.buildDirectRoute, RouteBuilder.directionsSegment,
      Option.map_eq_some'] at h
    obtain ⟨leg, hleg, rfl⟩ := h
    simp

/-- C8 witness: the direct-route invariants at a concrete successful build. -/
theorem C8_witness :
    builtDirect.segments.length = builtDirect.waypoints.length + 1
    ∧ builtDirect.total_distance_meters
        = (builtDirect.segments.map (fun s => s.distance_meters)).sum
    ∧ builtDirect.total_duration_seconds
        = (builtDirect.segments.map (fun s => s.duration_seconds)).sum :=
  C8_route_invariants.2 dirAlways cA cB {} builtDirect rfl

/-- C10: build_direct_route never raises: a failing directions call yields
None, and a successful one yields a Route with zero waypoints and exactly
one segment. -/
theorem C10_build_direct_route_total (dir : RouteBuilder.DirectionsOracle)
    (o d : Coordinates) (cs : Constraints) :
    (dir (RouteBuilder.mbProfile cs.transport_mode) (RouteBuilder.applyConstraints cs) o d = none
      → RouteBuilder.buildDirectRoute dir o d cs = none)
    ∧ (∀ r, RouteBuilder.buildDirectRoute dir o d cs = some r →
        r.waypoints = [] ∧ r.segments.length = 1) := by
  constructor
  · intro h
    simp [RouteBuilder.buildDirectRoute, RouteBuilder.directionsSegment, h]
  · intro r h
    simp only [RouteBuilder.buildDirectRoute, RouteBuilder.directionsSegment,
      Option.map_eq_some'] at h
    obtain ⟨leg, hleg, rfl⟩ := h
    simp

/-- C10 witness: a failing oracle yields None, and a succeeding oracle
yields the zero-waypoint single-segment route. -/
theorem C10_witness :
    RouteBuilder.buildDirectRoute dirNever cA cB {} = none
    ∧ (builtDirect.waypoints = [] ∧ builtDirect.segments.length = 1) :=
  ⟨(C10_build_direct_route_total dirNever cA cB {}).1 rfl,
   (C10_build_direct_route_total dirAlways cA cB {}).2 builtDirect rfl⟩

/-- C5 counterexample: with two waypoints (so the reordering condition
2 <= len(waypoints) and 2 + len(waypoints) <= 12 holds) and an
optimized-trips response proposing the reversed order [1, 0], build_route
still returns the waypoints in the given order: the provider's reordering is
discarded, so the claim that the interior waypoints are reordered via the
trip-optimization contract fails. -/
theorem C5_counterexample :
    (RouteBuilder.buildRoute dirAlways (some [1, 0]) cA cB [wp1, wp2] {}).map
        (fun r => r.waypoints) = some [wp1, wp2]
    ∧ [wp1, wp2] ≠ [wp2, wp1]
    ∧ 2 ≤ ([wp1, wp2] : List Waypoint).length
    ∧ 2 + ([wp1, wp2] : List Waypoint).length ≤ RouteBuilder.OPT_TRIPS_MAX_COORDS := by
  refine ⟨?_, by decide, by decide, by decide⟩
  rfl

/-- C5 amended: build_route asks the trip-optimization contract for an
ordering exactly when 2 <= len(waypoints) and 2 + len(waypoints) <= 12, but
discards the response: every successfully built Route keeps the given
waypoint order unchanged, in and out of that condition. -/
theorem C5_order_always_kept (dir : RouteBuilder.DirectionsOracle)
    (optResp : Option (List ℕ)) (o d : Coordinates) (ws : List Waypoint)
    (cs : Constraints) (r : Route)
    (h : RouteBuilder.buildRoute dir optResp o d ws cs = some r) :
    r.waypoints = ws := by
  simp only [RouteBuilder.buildRoute, RouteBuilder.buildMultiRoute,
    Option.map_eq_some'] at h
  obtain ⟨segs, hsegs, rfl⟩ := h
  simp [optimizeWaypointOrder_eq, ite_self]

/-- C5 witness: the amended statement at the concrete two-waypoint build. -/
theorem C5_witness : builtC5.waypoints = [wp1, wp2] :=
  C5_order_always_kept dirAlways (some [1, 0]) cA cB [wp1, wp2] {} builtC5 (by
    simp [RouteBuilder.buildRoute, RouteBuilder.buildMultiRoute, RouteBuilder.buildSegments,
      RouteBuilder.directionsSegment, RouteBuilder.optimizeWaypointOrder,
      RouteBuilder.mbProfile, RouteBuilder.applyConstraints, dirAlways, builtC5, zeroSeg,
      cA, cB, wp1, wp2])

/-- Taking a positive count from a cons keeps the head. -/
theorem head_take_cons {α : Type} (x : α) (l : List α) (n : ℕ) (h : 0 < n) :
    ((x :: l).take n).head? = some x := by
  cases n with
  | zero => omega
  | succ m => simp [List.take_succ_cons]

/-- C7 counterexample: the sequential generator _make_candidates of
orchestrator_sync.py applies no candidate cap: with seven waypoints and the
default knobs (6 singles, 6 pairs, cap 12) it yields 13 candidates, above
the configured RB_MAX_CANDIDATES ceiling of 12. -/
theorem C7_counterexample :
    (RouteOrchestratorSync.makeCandidates {} ws7).length = 13
    ∧ ({} : OrchKnobs).rb_max_candidates = 12
    ∧ ¬ ((RouteOrchestratorSync.makeCandidates {} ws7).length
          ≤ ({} : OrchKnobs).rb_max_candidates) := by decide

/-- C7 amended: the parallel generator _make_candidates of orchestrator.py
always begins with the empty (direct) candidate, respects the configured cap
whenever it is positive, and is a deterministic function of waypoints and
configuration; the sequential generator starts with the empty candidate too
but applies no cap. -/
theorem C7_amended (knobs : OrchKnobs) (ws ws2 : List Waypoint) :
    (RouteOrchestrator.makeCandidates knobs ws).head? = some []
    ∧ (0 < knobs.rb_max_candidates →
        (RouteOrchestrator.makeCandidates knobs ws).length ≤ knobs.rb_max_candidates)
    ∧ (RouteOrchestratorSync.makeCandidates knobs ws).head? = some []
    ∧ (ws = ws2 →
        RouteOrchestrator.makeCandidates knobs ws = RouteOrchestrator.makeCandidates knobs ws2) := by
  refine ⟨?_, ?_, ?_, fun h => by rw [h]⟩
  · simp only [RouteOrchestrator.makeCandidates]
    by_cases hcap : 0 < knobs.rb_max_candidates
    · rw [if_pos hcap]
      split
      · simp only [List.cons_append, List.nil_append]
        exact head_take_cons _ _ _ hcap
      · simp only [List.cons_append, List.nil_append]
        exact head_take_cons _ _ _ hcap
    · rw [if_neg hcap]
      split <;> simp
  · intro hcap
    simp only [RouteOrchestrator.makeCandidates, if_pos hcap]
    rw [List.length_take]
    exact min_le_left _ _
  · simp only [RouteOrchestratorSync.makeCandidates, List.cons_append, List.nil_append,
      List.head?_cons]

/-- C7 witness: the amended statement at the default knobs and the concrete
seven-waypoint list. -/
theorem C7_witness :
    ((RouteOrchestrator.makeCandidates {} ws7).head? = some []
      ∧ (0 < ({} : OrchKnobs).rb_max_candidates →
          (RouteOrchestrator.makeCandidates {} ws7).length ≤ ({} : OrchKnobs).rb_max_candidates)
      ∧ (RouteOrchestratorSync.makeCandidates {} ws7).head? = some []
      ∧ (ws7 = ws7 →
          RouteOrchestrator.makeCandidates {} ws7 = RouteOrchestrator.makeCandidates {} ws7))
    ∧ (RouteOrchestrator.makeCandidates {} ws7).length ≤ ({} : OrchKnobs).rb_max_candidates :=
  ⟨C7_amended {} ws7 ws7, (C7_amended {} ws7 ws7).2.1 (by decide)⟩

/-- C2 counterexample: under identical cache state and deterministic
upstream responses (images disabled, default weights), the parallel
orchestrator scores each built route in a singleton batch (scoreStage), so
both the 600 s and the 1200 s route get efficiency 90; the sequential
orchestrator passes the whole batch to score_routes, which scores them 90
and 20 against the batch minimum.  The scores therefore differ, refuting
behavioural equivalence as claimed. -/
theorem C2_counterexample :
    (RouteOrchestrator.scoreStage {} provZeroLegs [r600, r1200]).map
        (fun s => s.efficiency_score) = [90, 90]
    ∧ (RouteScorer.scoreRoutes {} (1/10) (fun _ => []) 0 [r600, r1200]).map
        (fun s => s.efficiency_score) = [90, 20]
    ∧ ([90, 90] : List ℚ) ≠ [90, 20] := by
  refine ⟨?_, ?_, by norm_num⟩
  · norm_num [RouteOrchestrator.scoreStage, RouteScorer.scoreRoutes,
      RouteScorer.calculateEfficiencyScore, RouteScorer.calculatePreferenceMatchScore,
      RouteScorer.combineScores, sortByKeyDesc, insertByDesc, provZeroLegs,
      List.filterMap_cons, List.filterMap_nil, r600, r1200]
  · norm_num [RouteScorer.scoreRoutes, RouteScorer.calculateEfficiencyScore,
      RouteScorer.calculatePreferenceMatchScore, RouteScorer.combineScores,
      sortByKeyDesc, insertByDesc, r600, r1200]

/-- C2 amended: the two orchestrators share cache keys and per-candidate
build logic, and in legacy mode (any of the single/pair/triple knobs
positive, top-K positive) the parallel candidate list is exactly the
sequential candidate list truncated to the configured cap; their scores,
however, differ because the parallel orchestrator normalises each route in a
singleton batch while the sequential one normalises across the whole batch
(C2_counterexample). -/
theorem C2_candidates_take_refinement (knobs : OrchKnobs) (ws : List Waypoint)
    (htop : 0 < knobs.wp_top_k)
    (hleg : 0 < knobs.route_max_single ∨ 0 < knobs.route_max_pairs
              ∨ 0 < knobs.route_max_triples)
    (hcap : 0 < knobs.rb_max_candidates) :
    RouteOrchestrator.makeCandidates knobs ws
      = (RouteOrchestratorSync.makeCandidates knobs ws).take knobs.rb_max_candidates := by
  simp only [RouteOrchestrator.makeCandidates, RouteOrchestratorSync.makeCandidates,
    if_pos htop, if_pos hleg, if_pos hcap]
  rcases Nat.eq_zero_or_pos knobs.route_max_triples with h0 | hpos
  · simp [h0]
  · simp [if_pos hpos]

/-- C2 witness: the candidate refinement at the default knobs and the
concrete seven-waypoint list. -/
theorem C2_witness :
    RouteOrchestrator.makeCandidates {} ws7
      = (RouteOrchestratorSync.makeCandidates {} ws7).take ({} : OrchKnobs).rb_max_candidates :=
  C2_candidates_take_refinement {} ws7 (by decide) (Or.inl (by decide)) (by decide)

/-- Windowed pairs of an empty list are empty for every window bound. -/
theorem pairsWindowed_nil (n : ℕ) : pairsWindowed [] n = [] := by cases n <;> rfl

/-- Taking a positive count from a singleton keeps the singleton. -/
theorem take_singleton_of_pos {α : Type} (x : α) (n : ℕ) (h : 0 < n) :
    List.take n [x] = [x] := by
  cases n with
  | zero => omega
  | succ m => simp

/-- With no waypoints the parallel candidate generator yields only the
direct (empty) candidate. -/
theorem makeCandidates_nil (knobs : OrchKnobs) :
    RouteOrchestrator.makeCandidates knobs [] = [[]] := by
  unfold RouteOrchestrator.makeCandidates
  simp only [sortWaypointsByRelevanceDesc, sortByKeyDesc, List.foldr_nil, List.take_nil,
    List.length_nil, Nat.min_zero, List.map_nil, pairsWindowed_nil, List.take_nil]
  split_ifs with h1 h2 h3 h4 h5 h6 <;>
    simp_all [pairsWindowed_nil, triplesOf, take_singleton_of_pos]

/-- De-duplicating an empty list yields an empty list. -/
theorem dedupeTopK_nil (k : ℕ) : RouteOrchestrator.dedupeTopK k [] = [] := rfl

/-- A bind cannot produce a cache failure when neither side can. -/
theorem bind_ne_cacheFailure {α β : Type} (a : Except OrchError α)
    (f : α → Except OrchError β) (e : String)
    (ha : ∀ e2, a ≠ .error (OrchError.cacheFailure e2))
    (hf : ∀ x e2, f x ≠ .error (OrchError.cacheFailure e2)) :
    a >>= f ≠ .error (OrchError.cacheFailure e) := by
  cases a with
  | error err =>
    intro hcontra
    have hbe : (Except.error err : Except OrchError β) = .error (OrchError.cacheFailure e) :=
      hcontra
    have h2 : err = OrchError.cacheFailure e := by
      injection hbe
    exact ha e (by rw [h2])
  | ok x =>
    intro hcontra
    exact hf x e hcontra

/-- The geocode helper cannot raise a cache failure on the all-miss cache. -/
theorem cachedGeocode_ne_cacheFailure (P : Providers) (t : String) (e : String) :
    RouteOrchestrator.cachedGeocode P missCache t ≠ .error (OrchError.cacheFailure e) := by
  cases hg : P.geocode t <;>
    simp [RouteOrchestrator.cachedGeocode, missCache, RouteOrchestrator.liftCache,
      Except.mapError, Bind.bind, Except.bind, hg, pure, Except.pure, throw, throwThe,
      MonadExceptOf.throw]

/-- Endpoint resolution cannot raise a cache failure on the all-miss cache. -/
theorem resolveEndpoint_ne_cacheFailure (P : Providers) (spec : Option EndpointSpec)
    (fb : String) (e : String) :
    RouteOrchestrator.resolveEndpoint P missCache spec fb
      ≠ .error (OrchError.cacheFailure e) := by
  rcases spec with _ | es
  · exact cachedGeocode_ne_cacheFailure P fb e
  · rcases hla : es.lat with _ | la
    · simp only [RouteOrchestrator.resolveEndpoint, hla]
      exact cachedGeocode_ne_cacheFailure P _ e
    · rcases hlo : es.lon with _ | lo
      · simp only [RouteOrchestrator.resolveEndpoint, hla, hlo]
        exact cachedGeocode_ne_cacheFailure P _ e
      · simp [RouteOrchestrator.resolveEndpoint, hla, hlo, pure, Except.pure]

/-- The zone stage cannot raise a cache failure on the all-miss cache. -/
theorem zoneStage_ne_cacheFailure (P : Providers) (o d : Coordinates) (m : ℤ)
    (mo : String) (e : String) :
    RouteOrchestrator.zoneStage P missCache o d m mo
      ≠ .error (OrchError.cacheFailure e) := by
  cases hz : P.createSearchZone o d m mo <;>
    simp [RouteOrchestrator.zoneStage, missCache, RouteOrchestrator.liftCache,
      Except.mapError, Bind.bind, Except.bind, hz, pure, Except.pure, throw, throwThe,
      MonadExceptOf.throw]

/-- On the all-miss cache the waypoint stage always succeeds with the
de-duplicated direct computation. -/
theorem waypointsStage_missCache (cfg : OrchConfig) (P : Providers) (zkey : ZoneKey)
    (zone : SearchZone) (q : List String) :
    RouteOrchestrator.waypointsStage cfg P missCache zkey zone q
      = .ok (RouteOrchestrator.dedupeTopK cfg.knobs.wp_top_k
          ((P.searchWaypoints zone q).getD [])) := by
  simp [RouteOrchestrator.waypointsStage, missCache, RouteOrchestrator.liftCache,
    Except.mapError, Bind.bind, Except.bind, pure, Except.pure]

/-- On the all-miss cache the route stage always succeeds with the direct
build computation. -/
theorem routesStage_missCache (cfg : OrchConfig) (P : Providers) (o d : Coordinates)
    (ws : List Waypoint) (cs : Constraints) :
    RouteOrchestrator.routesStage cfg P missCache o d ws cs
      = .ok (RouteOrchestrator.buildStage P o d
          (RouteOrchestrator.makeCandidates cfg.knobs ws) cs) := by
  simp [RouteOrchestrator.routesStage, missCache, RouteOrchestrator.liftCache,
    Except.mapError, Bind.bind, Except.bind, pure, Except.pure]

/-- C3 counterexample: a redis error on the very first cache get
(llm_extract_v1) propagates out of generate_routes unchanged - the request
fails instead of degrading to direct computation. -/
theorem C3_counterexample :
    RouteOrchestrator.generateRoutes {} provAllBuildsFail errCacheRedisDown reqFix
      = .error (OrchError.cacheFailure "redis down") := rfl

/-- C3 amended: a cache miss degrades to direct computation (on an all-miss
cache no cache failure can surface, only provider failures), but an error
raised by the cache store is not caught anywhere in generate_routes: it
propagates and fails the request. -/
theorem C3_cache_miss_ok_store_error_fatal :
    (∀ (cfg : OrchConfig) (P : Providers) (C : CacheOracle) (req : RouteRequest) (e : String),
        C.getLLM req.user_prompt = .error e →
        RouteOrchestrator.generateRoutes cfg P C req
          = .error (OrchError.cacheFailure e))
    ∧ (∀ (cfg : OrchConfig) (P : Providers) (req : RouteRequest) (e : String),
        RouteOrchestrator.generateRoutes cfg P missCache req
          ≠ .error (OrchError.cacheFailure e)) := by
  constructor
  · intro cfg P C req e h
    simp only [RouteOrchestrator.generateRoutes, h, RouteOrchestrator.liftCache,
      Except.mapError, Bind.bind, Except.bind]
  · intro cfg P req e
    unfold RouteOrchestrator.generateRoutes
    have hllm : RouteOrchestrator.liftCache (missCache.getLLM req.user_prompt)
        = Except.ok (none : Option ExtractedParameters) := rfl
    simp only [hllm, Bind.bind, Except.bind]
    cases hx : P.extract req.user_prompt with
    | none =>
      simp [hx, throw, throwThe, MonadExceptOf.throw]
    | some ep =>
      have hset : RouteOrchestrator.liftCache (missCache.setLLM req.user_prompt ep)
          = Except.ok () := rfl
      simp only [hx, hset, pure, Except.pure]
      refine bind_ne_cacheFailure _ _ _
        (fun e2 => resolveEndpoint_ne_cacheFailure P req.origin ep.origin e2) ?_
      intro originCoords _e2
      refine bind_ne_cacheFailure _ _ _
        (fun e3 => resolveEndpoint_ne_cacheFailure P req.destination ep.destination e3) ?_
      intro destCoords _e3
      refine bind_ne_cacheFailure _ _ _
        (fun e4 => zoneStage_ne_cacheFailure P originCoords destCoords _ _ e4) ?_
      intro zz _e4
      obtain ⟨zkey, zone⟩ := zz
      simp only [waypointsStage_missCache, routesStage_missCache]
      simp

/-- C3 witness: the failure-propagation statement applied to a concrete
failing cache. -/
theorem C3_witness :
    RouteOrchestrator.generateRoutes {} provAllBuildsFail errCacheBoom reqFix
      = .error (OrchError.cacheFailure "connection refused") :=
  C3_cache_miss_ok_store_error_fatal.1 {} provAllBuildsFail errCacheBoom reqFix
    "connection refused" rfl

/-- A zero-waypoint candidate fails to build when every directions call
fails. -/
theorem buildRoute_nil_none_of_directions_none (dir : RouteBuilder.DirectionsOracle)
    (optResp : Option (List ℕ)) (o d : Coordinates) (cs : Constraints)
    (h : ∀ pr ex a b, dir pr ex a b = none) :
    RouteBuilder.buildRoute dir optResp o d [] cs = none := by
  simp [RouteBuilder.buildRoute, RouteBuilder.buildMultiRoute, RouteBuilder.buildSegments,
    RouteBuilder.directionsSegment, h]

/-- The direct fallback fails when every directions call fails. -/
theorem buildDirectRoute_none_of_directions_none (dir : RouteBuilder.DirectionsOracle)
    (o d : Coordinates) (cs : Constraints) (h : ∀ pr ex a b, dir pr ex a b = none) :
    RouteBuilder.buildDirectRoute dir o d cs = none := by
  simp [RouteBuilder.buildDirectRoute, RouteBuilder.directionsSegment, h]

/-- The zone stage on the all-miss cache, written out by provider case. -/
theorem zoneStage_missCache (P : Providers) (o d : Coordinates) (m : ℤ) (mo : String) :
    RouteOrchestrator.zoneStage P missCache o d m mo
      = match P.createSearchZone o d m mo with
        | none => .error OrchError.zoneFailed
        | some z => .ok ((o, d, m, mo), z) := by
  cases hz : P.createSearchZone o d m mo <;>
    simp [RouteOrchestrator.zoneStage, missCache, RouteOrchestrator.liftCache,
      Except.mapError, Bind.bind, Except.bind, hz, pure, Except.pure, throw, throwThe,
      MonadExceptOf.throw]

/-- The near-endpoint filter of an empty list. -/
theorem dropNearEndpoints_nil (cfg : OrchConfig) (P : Providers) (o d : Coordinates) :
    RouteOrchestrator.dropNearEndpoints cfg P o d [] = [] := rfl

/-- C4 counterexample: with providers on which every directions call fails
(so every candidate build fails and the direct fallback fails too), the
request does not fail at all: generate_routes returns a successful response
with an empty route list.  No NoRouteFound error exists anywhere in the
source. -/
theorem C4_counterexample :
    RouteBuilder.buildDirectRoute provAllBuildsFail.directions
        { latitude := 37, longitude := -122 } { latitude := 38, longitude := -121 }
        (RouteOrchestrator.finalConstraints {} epFix
          (RouteOrchestrator.transportModeOf {} epFix)) = none
    ∧ RouteOrchestrator.generateRoutes {} provAllBuildsFail missCache reqFix
        = .ok { routes := [], total_routes_generated := 0, waypoints_found := 0 } :=
  ⟨rfl, rfl⟩

/-- C4 amended: when every candidate build fails the orchestrator falls back
to a single direct route; when that direct build also fails the request
completes successfully with an empty route list rather than failing with an
error (the source defines no NoRouteFound). -/
theorem C4_empty_build_falls_back_then_succeeds_empty :
    (∀ (P : Providers) (o d : Coordinates) (cands : List (List Waypoint)) (cs : Constraints),
        cands ≠ [] →
        (∀ c ∈ cands, RouteBuilder.buildRoute P.directions P.optimizedTrips o d c cs = none) →
        RouteOrchestrator.buildStage P o d cands cs
          = (RouteBuilder.buildDirectRoute P.directions o d cs).toList)
    ∧ (∀ (cfg : OrchConfig) (P : Providers) (req : RouteRequest) (ep : ExtractedParameters)
        (eo ed : EndpointSpec) (la lo la2 lo2 : ℚ) (z : SearchZone),
        P.extract req.user_prompt = some ep →
        req.origin = some eo → eo.lat = some la → eo.lon = some lo →
        req.destination = some ed → ed.lat = some la2 → ed.lon = some lo2 →
        (∀ a b m mo, P.createSearchZone a b m mo = some z) →
        (∀ zz q, P.searchWaypoints zz q = none) →
        (∀ pr ex a b, P.directions pr ex a b = none) →
        RouteOrchestrator.generateRoutes cfg P missCache req
          = .ok { routes := [], total_routes_generated := 0, waypoints_found := 0 }) := by
  constructor
  · intro P o d cands cs hne hall
    have hempty : cands.isEmpty = false := by
      cases cands with
      | nil => exact absurd rfl hne
      | cons c rest => rfl
    have hfm : cands.filterMap
        (fun c => RouteBuilder.buildRoute P.directions P.optimizedTrips o d c cs) = [] :=
      List.filterMap_eq_nil_iff.mpr hall
    simp [RouteOrchestrator.buildStage, hempty, hfm]
  · intro cfg P req ep eo ed la lo la2 lo2 z hex horig hla hlo hdest hla2 hlo2 hz hsw hdir
    unfold RouteOrchestrator.generateRoutes
    have hllm : RouteOrchestrator.liftCache (missCache.getLLM req.user_prompt)
        = Except.ok (none : Option ExtractedParameters) := rfl
    have hset : RouteOrchestrator.liftCache (missCache.setLLM req.user_prompt ep)
        = Except.ok () := rfl
    simp only [hllm, Bind.bind, Except.bind, hex, hset, pure, Except.pure]
    simp only [RouteOrchestrator.resolveEndpoint, horig, hla, hlo, hdest, hla2, hlo2,
      pure, Except.pure]
    simp only [zoneStage_missCache, hz]
    simp only [waypointsStage_missCache, hsw, Option.getD_none,
      RouteOrchestrator.dedupeTopK, RouteOrchestrator.dedupLoop, sortWaypointsByRelevanceDesc,
      sortByKeyDesc, List.foldr_nil, List.reverse_nil, dropNearEndpoints_nil]
    simp only [routesStage_missCache, makeCandidates_nil]
    have hbs : RouteOrchestrator.buildStage P
        { latitude := la, longitude := lo } { latitude := la2, longitude := lo2 } [[]]
        (RouteOrchestrator.finalConstraints cfg ep (RouteOrchestrator.transportModeOf cfg ep))
        = [] := by
      have h1 := buildRoute_nil_none_of_directions_none P.directions P.optimizedTrips
        { latitude := la, longitude := lo } { latitude := la2, longitude := lo2 }
        (RouteOrchestrator.finalConstraints cfg ep (RouteOrchestrator.transportModeOf cfg ep))
        hdir
      have h2 := buildDirectRoute_none_of_directions_none P.directions
        { latitude := la, longitude := lo } { latitude := la2, longitude := lo2 }
        (RouteOrchestrator.finalConstraints cfg ep (RouteOrchestrator.transportModeOf cfg ep))
        hdir
      simp [RouteOrchestrator.buildStage, h1, h2]
    simp only [hbs]
    simp [RouteOrchestrator.scoreStage, sortByKeyDesc]

/-- C4 witness: the fallback law at a concrete failing candidate set and the
request-level statement at concrete fixtures. -/
theorem C4_witness :
    RouteOrchestrator.buildStage provAllBuildsFail cA cB [[]] {}
      = (RouteBuilder.buildDirectRoute provAllBuildsFail.directions cA cB {}).toList
    ∧ RouteOrchestrator.generateRoutes {} provAllBuildsFail missCache reqFix
      = .ok { routes := [], total_routes_generated := 0, waypoints_found := 0 } :=
  ⟨C4_empty_build_falls_back_then_succeeds_empty.1 provAllBuildsFail cA cB [[]] {}
    (by decide)
    (fun c hc => by
      rw [List.mem_singleton] at hc
      subst hc
      exact buildRoute_nil_none_of_directions_none _ _ _ _ _ (fun _ _ _ _ => rfl)),
   C4_empty_build_falls_back_then_succeeds_empty.2 {} provAllBuildsFail reqFix epFix
    { lat := some 37, lon := some (-122) } { lat := some 38, lon := some (-121) }
    37 (-122) 38 (-121) zoneFix rfl rfl rfl rfl rfl rfl rfl
    (fun _ _ _ _ => rfl) (fun _ _ => rfl) (fun _ _ _ _ => rfl)⟩

/-- Floor division by 19 written with the euclidean division omega
understands. -/
theorem fdiv_nineteen_eq_ediv (x : ℤ) : x.fdiv 19 = x / 19 :=
  Int.fdiv_eq_ediv x (by norm_num)

/-- Half-to-even rounding of nineteenths is monotone (the tie branch is dead
because 2r = 19 has no integer solution). -/
theorem roundHalfEvenDiv_mono_19 (a a2 : ℤ) (h : a ≤ a2) :
    roundHalfEvenDiv a 19 ≤ roundHalfEvenDiv a2 19 := by
  unfold roundHalfEvenDiv
  simp only [fdiv_nineteen_eq_ediv]
  split_ifs <;> omega

/-- Shifting the numerator by a multiple of 19 shifts the rounded value (no
half-integer ties exist for an odd denominator). -/
theorem roundHalfEvenDiv_add_mul_19 (a k : ℤ) :
    roundHalfEvenDiv (a + k * 19) 19 = roundHalfEvenDiv a 19 + k := by
  unfold roundHalfEvenDiv
  simp only [fdiv_nineteen_eq_ediv]
  split_ifs <;> omega

/-- Covering of splits: every split for the smaller budget is matched by a
split for the larger budget that is at least as large on the origin side and
leaves at least as many minutes on the destination side. -/
theorem createSearchZoneCombos_covering (base e1 e2 : ℤ) (h1 : 0 ≤ e1) (h12 : e1 ≤ e2)
    (hb0 : 0 ≤ base) :
    ∀ o1 ∈ Geocoder.createSearchZoneCombos base e1,
      ∃ o2 ∈ Geocoder.createSearchZoneCombos base e2,
        o1 ≤ o2 ∧ o2 ≤ o1 + (e2 - e1) := by
  by_cases hgt : 60 < base
  · rw [createSearchZoneCombos_gt60 base e1 hgt h1,
      createSearchZoneCombos_gt60 base e2 hgt (le_trans h1 h12)]
    intro o1 ho1
    rw [List.mem_map] at ho1
    obtain ⟨i, hi, rfl⟩ := ho1
    rw [List.mem_range] at hi
    have hiz : (i : ℤ) ≤ 19 := by omega
    have hiz0 : (0 : ℤ) ≤ (i : ℤ) := by positivity
    refine ⟨roundHalfEvenDiv ((i : ℤ) * (base + e2)) 19,
      List.mem_map.mpr ⟨i, List.mem_range.mpr hi, rfl⟩, ?_, ?_⟩
    · exact roundHalfEvenDiv_mono_19 _ _ (by nlinarith)
    · have hstep : (i : ℤ) * (base + e2) ≤ (i : ℤ) * (base + e1) + (e2 - e1) * 19 := by
        nlinarith
      calc roundHalfEvenDiv ((i : ℤ) * (base + e2)) 19
          ≤ roundHalfEvenDiv ((i : ℤ) * (base + e1) + (e2 - e1) * 19) 19 :=
            roundHalfEvenDiv_mono_19 _ _ hstep
        _ = roundHalfEvenDiv ((i : ℤ) * (base + e1)) 19 + (e2 - e1) :=
            roundHalfEvenDiv_add_mul_19 _ _
  · have hng : ¬ (base + e1 < 0) := by omega
    have hng2 : ¬ (base + e2 < 0) := by omega
    unfold Geocoder.createSearchZoneCombos
    rw [if_neg hgt, if_neg hgt, if_neg hng, if_neg hng2]
    intro o1 ho1
    rw [List.mem_map] at ho1
    obtain ⟨k, hk, rfl⟩ := ho1
    rw [List.mem_range] at hk
    refine ⟨5 * (k : ℤ), List.mem_map.mpr ⟨k, List.mem_range.mpr (by omega), rfl⟩,
      le_refl _, by omega⟩

/-- The _iso_geom geometry is monotone in the requested minutes, given the
provider contract (isochrones nested by minutes, each containing the tiny
point buffer used for non-positive minutes). -/
theorem isoGeom_mono (f : ℤ → Set (ℝ × ℝ)) (p : Set (ℝ × ℝ))
    (hmono : ∀ m m2 : ℤ, m ≤ m2 → f m ⊆ f m2) (hp : ∀ m : ℤ, 1 ≤ m → p ⊆ f m)
    (m m2 : ℤ) (h : m ≤ m2) :
    Geocoder.isoGeom f p m ⊆ Geocoder.isoGeom f p m2 := by
  unfold Geocoder.isoGeom Geocoder.capMinutes
  split_ifs <;> first
    | exact subset_rfl
    | exact hp _ (by omega)
    | exact hmono _ _ (by omega)
    | omega

/-- C9: under the provider contract (origin and destination isochrones each
nested by minutes and containing their point buffers), increasing
extraMinutes never shrinks the area of the union region create_search_zone
computes: the region for the smaller budget is contained in the region for
the larger budget, so its Lebesgue area is no larger. -/
theorem C9_search_zone_area_monotone (oP dP : ℤ → Set (ℝ × ℝ)) (oB dB : Set (ℝ × ℝ))
    (base e1 e2 : ℤ)
    (hoMono : ∀ m m2 : ℤ, m ≤ m2 → oP m ⊆ oP m2)
    (hdMono : ∀ m m2 : ℤ, m ≤ m2 → dP m ⊆ dP m2)
    (hoB : ∀ m : ℤ, 1 ≤ m → oB ⊆ oP m)
    (hdB : ∀ m : ℤ, 1 ≤ m → dB ⊆ dP m)
    (hb0 : 0 ≤ base) (h1 : 0 ≤ e1) (h12 : e1 ≤ e2) :
    MeasureTheory.volume (Geocoder.searchZoneUnionRegion oP dP oB dB base e1)
      ≤ MeasureTheory.volume (Geocoder.searchZoneUnionRegion oP dP oB dB base e2) := by
  apply MeasureTheory.measure_mono
  unfold Geocoder.searchZoneUnionRegion
  intro x hx
  rw [Set.mem_iUnion₂] at hx
  obtain ⟨o1, ho1, hxin⟩ := hx
  obtain ⟨o2, ho2, hle, hle2⟩ := createSearchZoneCombos_covering base e1 e2 h1 h12 hb0 o1 ho1
  rw [Set.mem_iUnion₂]
  refine ⟨o2, ho2, ?_, ?_⟩
  · exact isoGeom_mono oP oB hoMono hoB o1 o2 hle hxin.1
  · exact isoGeom_mono dP dB hdMono hdB (base + e1 - o1) (base + e2 - o2) (by omega) hxin.2

/-- C9 witness: the monotonicity statement at concrete empty provider
geometry and budgets 0 and 5 over a 40 minute base. -/
theorem C9_witness :
    MeasureTheory.volume (Geocoder.searchZoneUnionRegion
        (fun _ => (∅ : Set (ℝ × ℝ))) (fun _ => ∅) ∅ ∅ 40 0)
      ≤ MeasureTheory.volume (Geocoder.searchZoneUnionRegion
        (fun _ => (∅ : Set (ℝ × ℝ))) (fun _ => ∅) ∅ ∅ 40 5) :=
  C9_search_zone_area_monotone (fun _ => ∅) (fun _ => ∅) ∅ ∅ 40 0 5
    (fun _ _ _ => subset_rfl) (fun _ _ _ => subset_rfl)
    (fun _ _ => subset_rfl) (fun _ _ => subset_rfl)
    (by decide) (by decide) (by decide)
